import Mathlib

/-!
Shallow embedding of the Bizdash backend (backend/server.js).

The Express request handlers are modelled as pure functions over an
explicit database state.  JavaScript dynamic values, truthiness and the
numeric coercions (parseFloat, parseInt) are made explicit.  SQL numeric
columns hold exact decimals, modelled as rationals; the special numeric
value NaN, which a numeric column admits and which parseFloat produces on
a non-numeric string, is modelled as none.  SQL NULL in a text column is
modelled as none.
-/

namespace Bizdash

/-- A JavaScript value as the handlers can observe one in a parsed JSON
request body or an environment variable: undefined (absent field), null,
NaN, a finite number, or a string. -/
inductive JsVal where
  | undef
  | null
  | nan
  | num (q : ℚ)
  | str (s : String)
deriving DecidableEq

/-- JavaScript truthiness, as the `!field` presence checks use it:
undefined, null, NaN, 0 and the empty string are falsy; every other value
the handlers can see is truthy. -/
def truthy : JsVal → Bool
  | .undef => false
  | .null => false
  | .nan => false
  | .num q => decide (q ≠ 0)
  | .str s => !s.isEmpty

/-- Numeric value of a run of decimal digits. -/
def digitsVal (ds : List Char) : Nat :=
  ds.foldl (fun a c => a * 10 + (c.toNat - 48)) 0

/-- The exponent parseFloat accepts after an e or E: an optional sign and
digits; with no digit the marker is trailing garbage and contributes
nothing (in JavaScript, parseFloat of the string 1e is 1). -/
def expVal (cs : List Char) : Int :=
  let (sgn, rest) : Int × List Char :=
    match cs with
    | '-' :: t => (-1, t)
    | '+' :: t => (1, t)
    | _ => (1, cs)
  let ds := rest.takeWhile Char.isDigit
  if ds.isEmpty then 0 else sgn * digitsVal ds

/-- JavaScript parseFloat on a string: skip leading whitespace, then an
optional sign, integer digits, an optional fraction and an optional
exponent; the longest numeric head is converted and trailing garbage is
ignored.  none models NaN, returned when no digit is consumed.  (The
Infinity literal is not modelled; no handler input in the claims uses
it.) -/
def parseFloatStr (s : String) : Option ℚ :=
  let cs := s.toList.dropWhile fun c => c = ' ' || c = '\t' || c = '\n' || c = '\r'
  let (sgn, cs1) : ℚ × List Char :=
    match cs with
    | '-' :: t => (-1, t)
    | '+' :: t => (1, t)
    | _ => (1, cs)
  let ip := cs1.takeWhile Char.isDigit
  let rest := cs1.drop ip.length
  let (fp, rest2) : List Char × List Char :=
    match rest with
    | '.' :: t => (t.takeWhile Char.isDigit, t.drop (t.takeWhile Char.isDigit).length)
    | _ => ([], rest)
  if ip.isEmpty && fp.isEmpty then none
  else
    let mant : ℚ := (digitsVal ip : ℚ) + (digitsVal fp : ℚ) / 10 ^ fp.length
    let e : Int :=
      match rest2 with
      | 'e' :: t => expVal t
      | 'E' :: t => expVal t
      | _ => 0
    some (sgn * mant * 10 ^ e)

/-- JavaScript parseFloat as the handlers apply it to a body field: the
argument is first converted to a string; undefined, null and NaN render to
words that do not parse, and a finite number round-trips through its
decimal rendering. -/
def parseFloat : JsVal → Option ℚ
  | .num q => some q
  | .str s => parseFloatStr s
  | _ => none

/-- Truncation toward zero, the effect of parseInt on the decimal
rendering of a finite number. -/
def ratTrunc (q : ℚ) : Int :=
  if q < 0 then -((-q).floor) else q.floor

/-- The leading base-10 integer JavaScript parseInt accepts from a string:
skip whitespace, an optional sign, then digits; trailing garbage ignored;
none (NaN) when no digit is consumed. -/
def parseIntStr (s : String) : Option Int :=
  let cs := s.toList.dropWhile fun c => c = ' ' || c = '\t' || c = '\n' || c = '\r'
  let (sgn, rest) : Int × List Char :=
    match cs with
    | '-' :: t => (-1, t)
    | '+' :: t => (1, t)
    | _ => (1, cs)
  let ds := rest.takeWhile Char.isDigit
  if ds.isEmpty then none else some (sgn * digitsVal ds)

/-- JavaScript parseInt as the handlers apply it: a finite number is
rendered to decimal and truncated toward zero; undefined, null and NaN do
not parse.  none models NaN. -/
def parseIntJs : JsVal → Option Int
  | .num q => some (ratTrunc q)
  | .str s => parseIntStr s
  | _ => none

/-- A calendar date as a SQL date column stores one. -/
structure Date where
  year : Nat
  month : Nat
  day : Nat
deriving DecidableEq

/-- The pieces of a character list between its hyphens. -/
def splitDashes : List Char → List (List Char)
  | [] => [[]]
  | '-' :: t => [] :: splitDashes t
  | c :: t =>
    match splitDashes t with
    | [] => [[c]]
    | h :: r => (c :: h) :: r

/-- A nonempty all-digit piece read as a number. -/
def digitsOnly (cs : List Char) : Option Nat :=
  if cs.isEmpty || !cs.all Char.isDigit then none else some (digitsVal cs)

/-- The ISO form YYYY-MM-DD the client sends for a date parameter; any
other string is rejected by the database, making the INSERT or UPDATE
throw, which the handler answers with 500. -/
def parseDateStr (s : String) : Option Date :=
  match splitDashes s.toList with
  | [y, m, d] =>
    match digitsOnly y, digitsOnly m, digitsOnly d with
    | some yn, some mn, some dn =>
      if 1 ≤ mn ∧ mn ≤ 12 ∧ 1 ≤ dn ∧ dn ≤ 31 then some ⟨yn, mn, dn⟩ else none
    | _, _, _ => none
  | _ => none

/-- The date a body field yields once the driver and the database have
processed it: only a string holding a well-formed date succeeds. -/
def dateParam : JsVal → Option Date
  | .str s => parseDateStr s
  | _ => none

/-- The SQL text parameter a body field is serialized to: undefined and
null become SQL NULL, a string is passed through.  (A numeric value would
be rendered by the driver; its exact spelling is never observed by any
handler path or claim.) -/
def textParam : JsVal → Option String
  | .undef => none
  | .null => none
  | .nan => some "NaN"
  | .num q => some (toString q)
  | .str s => some s

/-- A row of the expenses table.  amount is a SQL numeric value: an exact
decimal, or the special numeric NaN (none) that the column type admits. -/
structure Expense where
  id : Int
  description : Option String
  amount : Option ℚ
  category : Option String
  date : Date
deriving DecidableEq

/-- A row of the earnings table. -/
structure Earning where
  id : Int
  description : Option String
  amount : Option ℚ
  source : Option String
  date : Date
deriving DecidableEq

/-- A row of the inventory table.  quantity is an integer column, which
admits no NaN; supplier is nullable. -/
structure Item where
  id : Int
  name : Option String
  quantity : Int
  cost_price : Option ℚ
  selling_price : Option ℚ
  supplier : Option String
deriving DecidableEq

/-- The whole database state: the three tables and each one's identity
sequence for the next server-assigned id. -/
structure Db where
  expenses : List Expense
  earnings : List Earning
  inventory : List Item
  nextExpenseId : Int
  nextEarningId : Int
  nextItemId : Int
deriving DecidableEq

/-- An HTTP response as sendResponse shapes one: a success status with a
JSON payload, or an error status with a message object. -/
inductive Resp (α : Type) where
  | ok (status : Nat) (payload : α)
  | err (status : Nat) (message : String)
deriving DecidableEq

/-- Chronological order on dates, as the SQL date type orders them. -/
def dateLe (a b : Date) : Bool :=
  decide (a.year < b.year) ||
    (decide (a.year = b.year) &&
      (decide (a.month < b.month) ||
        (decide (a.month = b.month) && decide (a.day ≤ b.day))))

/-- Lexicographic order on character lists: the order a SQL text column
sorts ASCII strings by, and the order used on the month keys below. -/
def charListLe : List Char → List Char → Bool
  | [], _ => true
  | _ :: _, [] => false
  | a :: as, b :: bs => if a = b then charListLe as bs else decide (a < b)

/-- Lexicographic order on strings. -/
def strLe (a b : String) : Bool := charListLe a.toList b.toList

/-- ORDER BY name ASC on a nullable text column: in ascending order the
database sorts NULL rows last. -/
def nameLe (a b : Option String) : Bool :=
  match a, b with
  | none, none => true
  | none, some _ => false
  | some _, none => true
  | some x, some y => strLe x y

/-- The fields destructured from an expense request body; a field the JSON
does not carry is undefined. -/
structure ExpenseBody where
  description : JsVal
  amount : JsVal
  category : JsVal
  date : JsVal
deriving DecidableEq

/-- The fields destructured from an earning request body. -/
structure EarningBody where
  description : JsVal
  amount : JsVal
  source : JsVal
  date : JsVal
deriving DecidableEq

/-- The fields destructured from an inventory request body. -/
structure ItemBody where
  name : JsVal
  quantity : JsVal
  cost_price : JsVal
  selling_price : JsVal
  supplier : JsVal
deriving DecidableEq

/-- SELECT * FROM expenses ORDER BY date DESC. -/
def listExpenses (db : Db) : List Expense :=
  db.expenses.mergeSort fun a b => dateLe b.date a.date

/-- SELECT * FROM earnings ORDER BY date DESC. -/
def listEarnings (db : Db) : List Earning :=
  db.earnings.mergeSort fun a b => dateLe b.date a.date

/-- SELECT * FROM inventory ORDER BY name ASC. -/
def listInventory (db : Db) : List Item :=
  db.inventory.mergeSort fun a b => nameLe a.name b.name

/-- GET /api/expenses. -/
def getExpenses (db : Db) : Resp (List Expense) :=
  .ok 200 (listExpenses db)

/-- GET /api/earnings. -/
def getEarnings (db : Db) : Resp (List Earning) :=
  .ok 200 (listEarnings db)

/-- GET /api/inventory. -/
def getInventory (db : Db) : Resp (List Item) :=
  .ok 200 (listInventory db)

/-- POST /api/expenses: the presence check is JavaScript truthiness over
the four destructured fields; then INSERT with parseFloat(amount), the
new row is returned with status 201.  A parameter the database rejects
(here: a malformed date) makes the query throw, answered with 500. -/
def postExpenses (db : Db) (b : ExpenseBody) : Resp Expense × Db :=
  if !truthy b.description || !truthy b.amount || !truthy b.category || !truthy b.date then
    (.err 400 "Missing required fields for expense", db)
  else
    match dateParam b.date with
    | none => (.err 500 "Failed to add expense", db)
    | some d =>
      let row : Expense :=
        { id := db.nextExpenseId
          description := textParam b.description
          amount := parseFloat b.amount
          category := textParam b.category
          date := d }
      (.ok 201 row,
        { db with
            expenses := db.expenses ++ [row]
            nextExpenseId := db.nextExpenseId + 1 })

/-- PUT /api/expenses/:id: same presence check, then UPDATE ... WHERE
id = $5 RETURNING *; no returned row means 404. -/
def putExpenses (db : Db) (i : Int) (b : ExpenseBody) : Resp Expense × Db :=
  if !truthy b.description || !truthy b.amount || !truthy b.category || !truthy b.date then
    (.err 400 "Missing required fields for expense update", db)
  else
    match dateParam b.date with
    | none => (.err 500 "Failed to update expense", db)
    | some d =>
      let upd : Expense → Expense := fun e =>
        { e with
            description := textParam b.description
            amount := parseFloat b.amount
            category := textParam b.category
            date := d }
      match db.expenses.find? (fun e => e.id == i) with
      | none => (.err 404 "Expense not found", db)
      | some e =>
        (.ok 200 (upd e),
          { db with expenses := db.expenses.map fun r => if r.id = i then upd r else r })

/-- DELETE /api/expenses/:id: DELETE ... RETURNING *; no returned row
means 404, otherwise a confirmation message. -/
def deleteExpenses (db : Db) (i : Int) : Resp String × Db :=
  if db.expenses.any (fun e => e.id == i) then
    (.ok 200 "Expense deleted successfully",
      { db with expenses := db.expenses.filter fun e => !(e.id == i) })
  else
    (.err 404 "Expense not found", db)

/-- POST /api/earnings, structurally the expense handler with source in
place of category. -/
def postEarnings (db : Db) (b : EarningBody) : Resp Earning × Db :=
  if !truthy b.description || !truthy b.amount || !truthy b.source || !truthy b.date then
    (.err 400 "Missing required fields for earning", db)
  else
    match dateParam b.date with
    | none => (.err 500 "Failed to add earning", db)
    | some d =>
      let row : Earning :=
        { id := db.nextEarningId
          description := textParam b.description
          amount := parseFloat b.amount
          source := textParam b.source
          date := d }
      (.ok 201 row,
        { db with
            earnings := db.earnings ++ [row]
            nextEarningId := db.nextEarningId + 1 })

/-- PUT /api/earnings/:id. -/
def putEarnings (db : Db) (i : Int) (b : EarningBody) : Resp Earning × Db :=
  if !truthy b.description || !truthy b.amount || !truthy b.source || !truthy b.date then
    (.err 400 "Missing required fields for earning update", db)
  else
    match dateParam b.date with
    | none => (.err 500 "Failed to update earning", db)
    | some d =>
      let upd : Earning → Earning := fun e =>
        { e with
            description := textParam b.description
            amount := parseFloat b.amount
            source := textParam b.source
            date := d }
      match db.earnings.find? (fun e => e.id == i) with
      | none => (.err 404 "Earning not found", db)
      | some e =>
        (.ok 200 (upd e),
          { db with earnings := db.earnings.map fun r => if r.id = i then upd r else r })

/-- DELETE /api/earnings/:id. -/
def deleteEarnings (db : Db) (i : Int) : Resp String × Db :=
  if db.earnings.any (fun e => e.id == i) then
    (.ok 200 "Earning deleted successfully",
      { db with earnings := db.earnings.filter fun e => !(e.id == i) })
  else
    (.err 404 "Earning not found", db)

/-- POST /api/inventory: the presence check accepts any truthy name and
rejects the three numeric fields only when they are undefined; then
INSERT with parseInt(quantity) and parseFloat on the two prices.  A NaN
quantity is rejected by the integer column, making the query throw,
answered with 500 (a NaN price is admitted by the numeric column). -/
def postInventory (db : Db) (b : ItemBody) : Resp Item × Db :=
  if !truthy b.name || b.quantity == .undef || b.cost_price == .undef
      || b.selling_price == .undef then
    (.err 400 "Missing required fields for inventory item", db)
  else
    match parseIntJs b.quantity with
    | none => (.err 500 "Failed to add inventory item", db)
    | some n =>
      let row : Item :=
        { id := db.nextItemId
          name := textParam b.name
          quantity := n
          cost_price := parseFloat b.cost_price
          selling_price := parseFloat b.selling_price
          supplier := textParam b.supplier }
      (.ok 201 row,
        { db with
            inventory := db.inventory ++ [row]
            nextItemId := db.nextItemId + 1 })

/-- PUT /api/inventory/:id. -/
def putInventory (db : Db) (i : Int) (b : ItemBody) : Resp Item × Db :=
  if !truthy b.name || b.quantity == .undef || b.cost_price == .undef
      || b.selling_price == .undef then
    (.err 400 "Missing required fields for inventory item update", db)
  else
    match parseIntJs b.quantity with
    | none => (.err 500 "Failed to update inventory item", db)
    | some n =>
      let upd : Item → Item := fun e =>
        { e with
            name := textParam b.name
            quantity := n
            cost_price := parseFloat b.cost_price
            selling_price := parseFloat b.selling_price
            supplier := textParam b.supplier }
      match db.inventory.find? (fun e => e.id == i) with
      | none => (.err 404 "Inventory item not found", db)
      | some e =>
        (.ok 200 (upd e),
          { db with inventory := db.inventory.map fun r => if r.id = i then upd r else r })

/-- DELETE /api/inventory/:id. -/
def deleteInventory (db : Db) (i : Int) : Resp String × Db :=
  if db.inventory.any (fun e => e.id == i) then
    (.ok 200 "Inventory item deleted successfully",
      { db with inventory := db.inventory.filter fun e => !(e.id == i) })
  else
    (.err 404 "Inventory item not found", db)

/-- One step of a SQL SUM over numeric values: the special numeric NaN
absorbs. -/
def addNaN (a x : Option ℚ) : Option ℚ :=
  match a, x with
  | some u, some v => some (u + v)
  | _, _ => none

/-- SELECT SUM(col): NULL over the empty table (outer none), otherwise the
running sum, in which a NaN row makes the total NaN (inner none). -/
def sqlSum (l : List (Option ℚ)) : Option (Option ℚ) :=
  match l with
  | [] => none
  | _ => some (l.foldl addNaN (some 0))

/-- parseFloat(total) || 0, the coercion the summary handler applies to
each aggregate: a NULL (empty table) or NaN total reaches the JSON as
0. -/
def totalOrZero (l : List (Option ℚ)) : ℚ :=
  match sqlSum l with
  | some (some q) => q
  | _ => 0

/-- TO_CHAR(date, 'YYYY-MM'): the year zero-padded to four digits and the
month to two, joined by a hyphen. -/
def pad (w : Nat) (n : Nat) : String :=
  let s := toString n
  String.mk (List.replicate (w - s.length) '0') ++ s

/-- The year-month key of a date. -/
def monthKey (d : Date) : String := pad 4 d.year ++ "-" ++ pad 2 d.month

/-- One row of a monthly series: the month key and the total SUM(amount)
of its group. -/
structure MonthlyRow where
  month : String
  total : Option ℚ
deriving DecidableEq

/-- SELECT TO_CHAR(date, 'YYYY-MM') AS month, SUM(amount) AS total
GROUP BY month ORDER BY month: one output row per distinct month key,
carrying the sum over its group, sorted ascending by the key string. -/
def monthlyTotals (rows : List (Date × Option ℚ)) : List MonthlyRow :=
  (((rows.map fun r => monthKey r.1).dedup).mergeSort strLe).map fun k =>
    { month := k
      total := ((rows.filter fun r => monthKey r.1 == k).map Prod.snd).foldl addNaN (some 0) }

/-- The summary snapshot GET /api/summary returns. -/
structure Summary where
  totalExpenses : ℚ
  totalEarnings : ℚ
  netProfit : ℚ
  totalInventoryValue : ℚ
  monthlyExpenses : List MonthlyRow
  monthlyEarnings : List MonthlyRow
deriving DecidableEq

/-- GET /api/summary.  netProfit duplicates the two total expressions
exactly as the handler spells them out again on its own line. -/
def computeSummary (db : Db) : Summary :=
  { totalExpenses := totalOrZero (db.expenses.map Expense.amount)
    totalEarnings := totalOrZero (db.earnings.map Earning.amount)
    netProfit :=
      totalOrZero (db.earnings.map Earning.amount)
        - totalOrZero (db.expenses.map Expense.amount)
    totalInventoryValue := totalOrZero (db.inventory.map fun it =>
      match it.cost_price with
      | some c => some ((it.quantity : ℚ) * c)
      | none => none)
    monthlyExpenses := monthlyTotals (db.expenses.map fun e => (e.date, e.amount))
    monthlyEarnings := monthlyTotals (db.earnings.map fun e => (e.date, e.amount)) }

/-- An environment variable: undefined or a string.  The login handler
treats undefined and the empty string alike (JavaScript falsiness). -/
def envFalsy : Option String → Bool
  | none => true
  | some s => s.isEmpty

/-- The success payload of the login route. -/
structure LoginOk where
  message : String
  username : String
deriving DecidableEq

/-- POST /api/auth/login against the configured BASIC_AUTH_USER and
BASIC_AUTH_PASSWORD pair. -/
def login (cfgUser cfgPassword : Option String) (username password : String) : Resp LoginOk :=
  if envFalsy cfgUser || envFalsy cfgPassword then
    .err 500 "Authentication not configured on server."
  else if some username == cfgUser && some password == cfgPassword then
    .ok 200 { message := "Login successful", username := username }
  else
    .err 401 "Invalid username or password"

/-! Order lemmas for the three sort comparators: transitivity and
totality, the two hypotheses of sorted_mergeSort. -/

theorem dateLe_trans (a b c : Date) (hab : dateLe a b = true) (hbc : dateLe b c = true) :
    dateLe a c = true := by
  simp only [dateLe, Bool.or_eq_true, Bool.and_eq_true, decide_eq_true_eq] at hab hbc ⊢
  omega

theorem dateLe_total (a b : Date) : dateLe a b || dateLe b a := by
  simp only [dateLe, Bool.or_eq_true, Bool.and_eq_true, decide_eq_true_eq]
  omega

theorem charListLe_trans :
    ∀ as bs cs : List Char, charListLe as bs = true → charListLe bs cs = true →
      charListLe as cs = true
  | [], _, _, _, _ => rfl
  | _ :: _, [], _, hab, _ => by simp [charListLe] at hab
  | _ :: _, _ :: _, [], _, hbc => by simp [charListLe] at hbc
  | a :: as, b :: bs, c :: cs, hab, hbc => by
    simp only [charListLe] at hab hbc ⊢
    by_cases h1 : a = b
    · subst h1
      by_cases h2 : a = c
      · subst h2
        simp only [if_pos rfl] at hab hbc ⊢
        exact charListLe_trans as bs cs hab hbc
      · simpa [h2] using hbc
    · have hba : a < b := by simpa [h1] using hab
      by_cases h2 : b = c
      · subst h2
        simpa [h1] using hab
      · have hbc2 : b < c := by simpa [h2] using hbc
        have hac : a < c := lt_trans hba hbc2
        simp [ne_of_lt hac, hac]

theorem charListLe_total :
    ∀ as bs : List Char, charListLe as bs || charListLe bs as
  | [], _ => by simp [charListLe]
  | _ :: _, [] => by simp [charListLe]
  | a :: as, b :: bs => by
    simp only [charListLe]
    by_cases h1 : a = b
    · subst h1
      simpa using charListLe_total as bs
    · rcases lt_or_gt_of_ne h1 with h | h
      · simp [h1, h]
      · simp [h1, Ne.symm h1, h]

theorem strLe_trans (a b c : String) (hab : strLe a b = true) (hbc : strLe b c = true) :
    strLe a c = true :=
  charListLe_trans _ _ _ hab hbc

theorem strLe_total (a b : String) : strLe a b || strLe b a :=
  charListLe_total _ _

theorem nameLe_trans (a b c : Option String) (hab : nameLe a b = true)
    (hbc : nameLe b c = true) : nameLe a c = true := by
  match a, b, c with
  | none, none, _ => exact hbc
  | none, some _, _ => simp [nameLe] at hab
  | some _, none, none => simp [nameLe]
  | some _, none, some _ => simp [nameLe] at hbc
  | some _, some _, none => simp [nameLe]
  | some x, some y, some z => exact strLe_trans x y z hab hbc

theorem nameLe_total (a b : Option String) : nameLe a b || nameLe b a := by
  match a, b with
  | none, none => simp [nameLe]
  | none, some _ => simp [nameLe]
  | some _, none => simp [nameLe]
  | some x, some y => exact strLe_total x y

/-- Folding addNaN over NaN-free summands is the plain sum. -/
theorem foldl_addNaN_eq_sum :
    ∀ (l : List (Option ℚ)) (_ : ∀ x ∈ l, x.isSome = true) (q : ℚ),
      l.foldl addNaN (some q) = some (q + (l.map fun x => x.getD 0).sum)
  | [], _, q => by simp
  | none :: _, h, _ => by simpa using h none (by simp)
  | some v :: t, h, q => by
    have ht : ∀ y ∈ t, y.isSome = true := fun y hy => h y (by simp [hy])
    simp only [List.foldl_cons, addNaN, List.map_cons, List.sum_cons, Option.getD_some]
    rw [foldl_addNaN_eq_sum t ht (q + v), add_assoc]

/-- C8: for every database state, the netProfit field of the summary
snapshot equals its totalEarnings field minus its totalExpenses field. -/
theorem claim_C8_netProfit (db : Db) :
    (computeSummary db).netProfit =
      (computeSummary db).totalEarnings - (computeSummary db).totalExpenses := rfl

/-- C5: when all three tables are empty, the summary is all zeros and two
empty monthly series. -/
theorem claim_C5_empty_summary (db : Db) (he : db.expenses = [])
    (hg : db.earnings = []) (hi : db.inventory = []) :
    computeSummary db =
      { totalExpenses := 0, totalEarnings := 0, netProfit := 0,
        totalInventoryValue := 0, monthlyExpenses := [], monthlyEarnings := [] } := by
  simp [computeSummary, he, hg, hi, totalOrZero, sqlSum, monthlyTotals]

/-- C5 witness: the empty database state evaluates to the all-zero
snapshot. -/
theorem claim_C5_empty_summary_witness :
    computeSummary ⟨[], [], [], 1, 1, 1⟩ =
      { totalExpenses := 0, totalEarnings := 0, netProfit := 0,
        totalInventoryValue := 0, monthlyExpenses := [], monthlyEarnings := [] } :=
  claim_C5_empty_summary ⟨[], [], [], 1, 1, 1⟩ rfl rfl rfl

/-- C2: an inventory item with quantity 100 and cost_price 10.50 (the
exact decimal 21/2) contributes exactly 1050 to totalInventoryValue, and
any later recomputation of the summary over the same inventory state
yields exactly 1050 again, with no drift. -/
theorem claim_C2_inventory_value (db : Db) (w : Item) (hq : w.quantity = 100)
    (hc : w.cost_price = some (21 / 2)) (h : db.inventory = [w]) :
    (computeSummary db).totalInventoryValue = 1050 ∧
      ∀ db' : Db, db'.inventory = db.inventory →
        (computeSummary db').totalInventoryValue = 1050 := by
  have key : ∀ d : Db, d.inventory = [w] →
      (computeSummary d).totalInventoryValue = 1050 := by
    intro d hd
    simp [computeSummary, hd, hq, hc, totalOrZero, sqlSum, addNaN]
    norm_num
  exact ⟨key db h, fun db' h' => key db' (h'.trans h)⟩

/-- C2 witness: a concrete database holding exactly the item
{quantity 100, cost_price 10.50}. -/
theorem claim_C2_inventory_value_witness :
    (computeSummary ⟨[], [], [⟨1, some "Widget", 100, some (21 / 2), some 15, some "Acme"⟩],
        1, 1, 2⟩).totalInventoryValue = 1050 :=
  (claim_C2_inventory_value _ ⟨1, some "Widget", 100, some (21 / 2), some 15, some "Acme"⟩
    rfl rfl rfl).1

/-- C3 is violated by the code: a create submission with amount 0 and all
other fields present and well-typed is rejected with 400, because the
presence check uses JavaScript truthiness and the number 0 is falsy; no
record is stored.  The same happens for earnings. -/
theorem claim_C3_zero_amount_rejected (db : Db) :
    postExpenses db ⟨.str "lunch", .num 0, .str "food", .str "2024-01-15"⟩ =
      (.err 400 "Missing required fields for expense", db) ∧
    postEarnings db ⟨.str "sale", .num 0, .str "shop", .str "2024-01-15"⟩ =
      (.err 400 "Missing required fields for earning", db) := by
  have h0 : truthy (.num 0) = false := by decide
  constructor
  · simp [postExpenses, h0]
  · simp [postEarnings, h0]

/-- C1 is violated by the code: amount "abc" passes the truthiness
presence check, parseFloat turns it into NaN, and the INSERT stores a NaN
amount with status 201 instead of failing with 400; for inventory,
quantity "abc" reaches the integer column as NaN and the handler answers
500, again not 400. -/
theorem claim_C1_nan_not_rejected (db : Db) :
    postExpenses db ⟨.str "lunch", .str "abc", .str "food", .str "2024-01-15"⟩ =
      (.ok 201 ⟨db.nextExpenseId, some "lunch", none, some "food", ⟨2024, 1, 15⟩⟩,
        { db with
            expenses :=
              db.expenses ++ [⟨db.nextExpenseId, some "lunch", none, some "food", ⟨2024, 1, 15⟩⟩]
            nextExpenseId := db.nextExpenseId + 1 }) ∧
    postInventory db ⟨.str "Widget", .str "abc", .num 1, .num 2, .undef⟩ =
      (.err 500 "Failed to add inventory item", db) := by
  have h1 : truthy (.str "lunch") = true := by decide
  have h2 : truthy (.str "abc") = true := by decide
  have h3 : truthy (.str "food") = true := by decide
  have h4 : truthy (.str "2024-01-15") = true := by decide
  have h5 : truthy (.str "Widget") = true := by decide
  have hd : dateParam (.str "2024-01-15") = some ⟨2024, 1, 15⟩ := by decide
  have hp : parseFloat (.str "abc") = none := by decide
  have hq : parseIntJs (.str "abc") = none := by decide
  constructor
  · simp [postExpenses, h1, h2, h3, h4, hd, hp, textParam]
  · simp [postInventory, h5, hq]

/-- C9: each list endpoint returns the full stored collection with no
pagination (a permutation of the table), ordered by date descending for
expenses and earnings and by name ascending for inventory. -/
theorem claim_C9_list_order (db : Db) :
    getExpenses db = .ok 200 (listExpenses db) ∧
    List.Perm (listExpenses db) db.expenses ∧
    (listExpenses db).Pairwise (fun a b => dateLe b.date a.date = true) ∧
    getEarnings db = .ok 200 (listEarnings db) ∧
    List.Perm (listEarnings db) db.earnings ∧
    (listEarnings db).Pairwise (fun a b => dateLe b.date a.date = true) ∧
    getInventory db = .ok 200 (listInventory db) ∧
    List.Perm (listInventory db) db.inventory ∧
    (listInventory db).Pairwise (fun a b => nameLe a.name b.name = true) := by
  refine ⟨rfl, List.mergeSort_perm _ _, ?_, rfl, List.mergeSort_perm _ _, ?_,
    rfl, List.mergeSort_perm _ _, ?_⟩
  · exact List.sorted_mergeSort
      (fun a b c hab hbc => dateLe_trans c.date b.date a.date hbc hab)
      (fun a b => dateLe_total b.date a.date) _
  · exact List.sorted_mergeSort
      (fun a b c hab hbc => dateLe_trans c.date b.date a.date hbc hab)
      (fun a b => dateLe_total b.date a.date) _
  · exact List.sorted_mergeSort
      (fun a b c hab hbc => nameLe_trans a.name b.name c.name hab hbc)
      (fun a b => nameLe_total a.name b.name) _

/-- C6: deleting an id with no corresponding record answers 404; deleting
an existing id succeeds, the record is gone from a subsequent list, and a
second delete of the same id answers 404.  Stated for all three
resources. -/
theorem claim_C6_delete (db : Db) (i : Int) :
    ((∀ e ∈ db.expenses, e.id ≠ i) →
      deleteExpenses db i = (.err 404 "Expense not found", db)) ∧
    ((∃ e ∈ db.expenses, e.id = i) →
      (deleteExpenses db i).1 = .ok 200 "Expense deleted successfully" ∧
      (∀ e ∈ listExpenses (deleteExpenses db i).2, e.id ≠ i) ∧
      (deleteExpenses (deleteExpenses db i).2 i).1 = .err 404 "Expense not found") ∧
    ((∀ e ∈ db.earnings, e.id ≠ i) →
      deleteEarnings db i = (.err 404 "Earning not found", db)) ∧
    ((∃ e ∈ db.earnings, e.id = i) →
      (deleteEarnings db i).1 = .ok 200 "Earning deleted successfully" ∧
      (∀ e ∈ listEarnings (deleteEarnings db i).2, e.id ≠ i) ∧
      (deleteEarnings (deleteEarnings db i).2 i).1 = .err 404 "Earning not found") ∧
    ((∀ e ∈ db.inventory, e.id ≠ i) →
      deleteInventory db i = (.err 404 "Inventory item not found", db)) ∧
    ((∃ e ∈ db.inventory, e.id = i) →
      (deleteInventory db i).1 = .ok 200 "Inventory item deleted successfully" ∧
      (∀ e ∈ listInventory (deleteInventory db i).2, e.id ≠ i) ∧
      (deleteInventory (deleteInventory db i).2 i).1 = .err 404 "Inventory item not found") := by
  refine ⟨?_, ?_, ?_, ?_, ?_, ?_⟩
  · intro h
    have hany : (db.expenses.any fun e => e.id == i) = false := by
      simp only [List.any_eq_false, beq_iff_eq]
      exact h
    simp [deleteExpenses, hany]
  · rintro ⟨e, he, hei⟩
    have hany : (db.expenses.any fun e => e.id == i) = true := by
      simp only [List.any_eq_true, beq_iff_eq]
      exact ⟨e, he, hei⟩
    have hmem : ∀ x ∈ db.expenses.filter (fun e => !(e.id == i)), x.id ≠ i := by
      intro x hx
      have := (List.mem_filter.mp hx).2
      simpa using this
    refine ⟨by simp [deleteExpenses, hany], ?_, ?_⟩
    · intro x hx
      simp only [deleteExpenses, hany, if_true, listExpenses] at hx
      exact hmem x (List.mem_mergeSort.mp hx)
    · have hany2 : ((db.expenses.filter fun e => !(e.id == i)).any fun e => e.id == i) = false := by
        simp only [List.any_eq_false, beq_iff_eq]
        exact hmem
      simp [deleteExpenses, hany, hany2]
  · intro h
    have hany : (db.earnings.any fun e => e.id == i) = false := by
      simp only [List.any_eq_false, beq_iff_eq]
      exact h
    simp [deleteEarnings, hany]
  · rintro ⟨e, he, hei⟩
    have hany : (db.earnings.any fun e => e.id == i) = true := by
      simp only [List.any_eq_true, beq_iff_eq]
      exact ⟨e, he, hei⟩
    have hmem : ∀ x ∈ db.earnings.filter (fun e => !(e.id == i)), x.id ≠ i := by
      intro x hx
      have := (List.mem_filter.mp hx).2
      simpa using this
    refine ⟨by simp [deleteEarnings, hany], ?_, ?_⟩
    · intro x hx
      simp only [deleteEarnings, hany, if_true, listEarnings] at hx
      exact hmem x (List.mem_mergeSort.mp hx)
    · have hany2 : ((db.earnings.filter fun e => !(e.id == i)).any fun e => e.id == i) = false := by
        simp only [List.any_eq_false, beq_iff_eq]
        exact hmem
      simp [deleteEarnings, hany, hany2]
  · intro h
    have hany : (db.inventory.any fun e => e.id == i) = false := by
      simp only [List.any_eq_false, beq_iff_eq]
      exact h
    simp [deleteInventory, hany]
  · rintro ⟨e, he, hei⟩
    have hany : (db.inventory.any fun e => e.id == i) = true := by
      simp only [List.any_eq_true, beq_iff_eq]
      exact ⟨e, he, hei⟩
    have hmem : ∀ x ∈ db.inventory.filter (fun e => !(e.id == i)), x.id ≠ i := by
      intro x hx
      have := (List.mem_filter.mp hx).2
      simpa using this
    refine ⟨by simp [deleteInventory, hany], ?_, ?_⟩
    · intro x hx
      simp only [deleteInventory, hany, if_true, listInventory] at hx
      exact hmem x (List.mem_mergeSort.mp hx)
    · have hany2 : ((db.inventory.filter fun e => !(e.id == i)).any fun e => e.id == i) = false := by
        simp only [List.any_eq_false, beq_iff_eq]
        exact hmem
      simp [deleteInventory, hany, hany2]

/-- C7: with both credentials configured (non-falsy), login succeeds with
a payload echoing the username exactly when both submitted values match;
a mismatch answers 401; with either credential unconfigured the handler
answers 500, a response distinct from the bad-password one. -/
theorem claim_C7_login (cu cp : Option String) (u pw : String) :
    (envFalsy cu = false → envFalsy cp = false →
      (login cu cp u pw = .ok 200 ⟨"Login successful", u⟩ ↔ cu = some u ∧ cp = some pw) ∧
      (¬(cu = some u ∧ cp = some pw) →
        login cu cp u pw = .err 401 "Invalid username or password")) ∧
    (envFalsy cu = true ∨ envFalsy cp = true →
      login cu cp u pw = .err 500 "Authentication not configured on server.") := by
  constructor
  · intro hcu hcp
    have hfal : (envFalsy cu || envFalsy cp) = false := by simp [hcu, hcp]
    constructor
    · constructor
      · intro hh
        cases hbv : (some u == cu && some pw == cp) with
        | true =>
          simp only [Bool.and_eq_true, beq_iff_eq] at hbv
          exact ⟨hbv.1.symm, hbv.2.symm⟩
        | false => simp [login, hfal, hbv] at hh
      · rintro ⟨h1, h2⟩
        have hb : (some u == cu && some pw == cp) = true := by simp [h1, h2]
        simp [login, hfal, hb]
    · intro hnot
      have hb : (some u == cu && some pw == cp) = false := by
        cases hbv : (some u == cu && some pw == cp) with
        | false => rfl
        | true =>
          simp only [Bool.and_eq_true, beq_iff_eq] at hbv
          exact absurd ⟨hbv.1.symm, hbv.2.symm⟩ hnot
      simp [login, hfal, hb]
  · intro h
    have hfal : (envFalsy cu || envFalsy cp) = true := by
      rcases h with h | h <;> simp [h]
    simp [login, hfal]

/-- C10: inventory create and update reject the three numeric fields only
when they are undefined (the value 0 is present) and name by truthiness;
the supplier field may be omitted; concretely an item with quantity 0 and
no supplier is accepted, stored with quantity 0 and a NULL supplier. -/
theorem claim_C10_inventory_presence (db : Db) (i : Int) (b : ItemBody) :
    ((postInventory db b).1 = .err 400 "Missing required fields for inventory item" ↔
      truthy b.name = false ∨ b.quantity = .undef ∨ b.cost_price = .undef ∨
        b.selling_price = .undef) ∧
    ((putInventory db i b).1 = .err 400 "Missing required fields for inventory item update" ↔
      truthy b.name = false ∨ b.quantity = .undef ∨ b.cost_price = .undef ∨
        b.selling_price = .undef) ∧
    postInventory db ⟨.str "Widget", .num 0, .num (21 / 2), .num 15, .undef⟩ =
      (.ok 201 ⟨db.nextItemId, some "Widget", 0, some (21 / 2), some 15, none⟩,
        { db with
            inventory :=
              db.inventory ++ [⟨db.nextItemId, some "Widget", 0, some (21 / 2), some 15, none⟩]
            nextItemId := db.nextItemId + 1 }) := by
  refine ⟨?_, ?_, ?_⟩
  · by_cases hc : (!truthy b.name || b.quantity == JsVal.undef || b.cost_price == JsVal.undef
        || b.selling_price == JsVal.undef) = true
    · constructor
      · intro _
        have := hc
        simp only [Bool.or_eq_true, Bool.not_eq_true', beq_iff_eq] at this
        tauto
      · intro _
        simp [postInventory, hc]
    · constructor
      · intro hh
        cases hpq : parseIntJs b.quantity with
        | none => simp [postInventory, hc, hpq] at hh
        | some n => simp [postInventory, hc, hpq] at hh
      · intro hh
        simp only [Bool.or_eq_true, Bool.not_eq_true', beq_iff_eq] at hc
        tauto
  · by_cases hc : (!truthy b.name || b.quantity == JsVal.undef || b.cost_price == JsVal.undef
        || b.selling_price == JsVal.undef) = true
    · constructor
      · intro _
        have := hc
        simp only [Bool.or_eq_true, Bool.not_eq_true', beq_iff_eq] at this
        tauto
      · intro _
        simp [putInventory, hc]
    · constructor
      · intro hh
        cases hpq : parseIntJs b.quantity with
        | none => simp [putInventory, hc, hpq] at hh
        | some n =>
          cases hf : db.inventory.find? (fun e => e.id == i) with
          | none => simp [putInventory, hc, hpq, hf] at hh
          | some e => simp [putInventory, hc, hpq, hf] at hh
      · intro hh
        simp only [Bool.or_eq_true, Bool.not_eq_true', beq_iff_eq] at hc
        tauto
  · have h5 : truthy (.str "Widget") = true := by decide
    have hq : parseIntJs (.num 0) = some 0 := by
      norm_num [parseIntJs, ratTrunc, Rat.floor]
    simp [postInventory, h5, hq, textParam, parseFloat]

/-- Two pairwise properties of one list combine pointwise. -/
theorem pairwise_and {α : Type} {R S : α → α → Prop} {l : List α}
    (h1 : l.Pairwise R) (h2 : l.Pairwise S) : l.Pairwise fun a b => R a b ∧ S a b := by
  induction l with
  | nil => simp
  | cons a t ih =>
    rcases List.pairwise_cons.mp h1 with ⟨ha, h1t⟩
    rcases List.pairwise_cons.mp h2 with ⟨hb, h2t⟩
    exact List.pairwise_cons.mpr ⟨fun x hx => ⟨ha x hx, hb x hx⟩, ih h1t h2t⟩

/-- The database state of the monthly-grouping example: three expenses of
50, 30 and 10 dated 2024-01-15, 2024-01-20 and 2024-02-01. -/
def c4Db : Db :=
  { expenses :=
      [⟨1, some "supplies", some 50, some "office", ⟨2024, 1, 15⟩⟩,
       ⟨2, some "hosting", some 30, some "it", ⟨2024, 1, 20⟩⟩,
       ⟨3, some "coffee", some 10, some "food", ⟨2024, 2, 1⟩⟩]
    earnings := []
    inventory := []
    nextExpenseId := 4
    nextEarningId := 1
    nextItemId := 1 }

/-- C4: the summary groups expenses by the year-month of their date, sums
amount per group, and returns the rows sorted strictly ascending by the
YYYY-MM key; every month of an expense appears and no other; and on the
concrete example of 50 and 30 in 2024-01 and 10 in 2024-02 it returns
exactly the two rows (2024-01, 80) and (2024-02, 10). -/
theorem claim_C4_monthly_expenses :
    (∀ rows : List (Date × Option ℚ),
      (monthlyTotals rows).Pairwise
        (fun a b => strLe a.month b.month = true ∧ a.month ≠ b.month) ∧
      ((∀ r ∈ rows, r.2.isSome = true) → ∀ m ∈ monthlyTotals rows,
        m.total =
          some (((rows.filter fun r => monthKey r.1 == m.month).map fun r => r.2.getD 0).sum)) ∧
      (∀ k : String,
        (∃ m ∈ monthlyTotals rows, m.month = k) ↔ ∃ r ∈ rows, monthKey r.1 = k)) ∧
    (computeSummary c4Db).monthlyExpenses =
      [⟨"2024-01", some 80⟩, ⟨"2024-02", some 10⟩] := by
  constructor
  · intro rows
    refine ⟨?_, ?_, ?_⟩
    · simp only [monthlyTotals]
      rw [List.pairwise_map]
      have hs := @List.sorted_mergeSort String strLe strLe_trans strLe_total
        ((rows.map fun r => monthKey r.1).dedup)
      have hn : (((rows.map fun r => monthKey r.1).dedup).mergeSort strLe).Nodup :=
        (List.mergeSort_perm _ _).nodup_iff.mpr (List.nodup_dedup _)
      exact (pairwise_and hs hn).imp fun h => h
    · intro hsome m hm
      simp only [monthlyTotals, List.mem_map] at hm
      rcases hm with ⟨k, _, rfl⟩
      have hall : ∀ x ∈ (rows.filter fun r => monthKey r.1 == k).map Prod.snd,
          x.isSome = true := by
        intro x hx
        rcases List.mem_map.mp hx with ⟨r, hr, rfl⟩
        exact hsome r (List.mem_filter.mp hr).1
      show ((rows.filter fun r => monthKey r.1 == k).map Prod.snd).foldl addNaN (some 0) = _
      rw [foldl_addNaN_eq_sum _ hall 0, zero_add, List.map_map]
      rfl
    · intro k
      simp only [monthlyTotals, List.mem_map, List.mem_mergeSort, List.mem_dedup]
      constructor
      · rintro ⟨m, ⟨k2, hk2, rfl⟩, hmk⟩
        rcases hk2 with ⟨r, hr, hrk⟩
        exact ⟨r, hr, by rw [hrk]; exact hmk⟩
      · rintro ⟨r, hr, hrk⟩
        exact ⟨⟨k, _⟩, ⟨k, ⟨r, hr, hrk⟩, rfl⟩, rfl⟩
  · have hmk1 : (monthKey ⟨2024, 1, 15⟩ == "2024-01") = true := by decide
    have hmk2 : (monthKey ⟨2024, 1, 20⟩ == "2024-01") = true := by decide
    have hmk3 : (monthKey ⟨2024, 2, 1⟩ == "2024-01") = false := by decide
    have hmk4 : (monthKey ⟨2024, 1, 15⟩ == "2024-02") = false := by decide
    have hmk5 : (monthKey ⟨2024, 1, 20⟩ == "2024-02") = false := by decide
    have hmk6 : (monthKey ⟨2024, 2, 1⟩ == "2024-02") = true := by decide
    have hstep : (computeSummary c4Db).monthlyExpenses =
        monthlyTotals [(⟨2024, 1, 15⟩, some 50), (⟨2024, 1, 20⟩, some 30),
          (⟨2024, 2, 1⟩, some 10)] := rfl
    rw [hstep]
    have hkeys : (([((⟨2024, 1, 15⟩ : Date), some (50 : ℚ)), (⟨2024, 1, 20⟩, some 30),
        (⟨2024, 2, 1⟩, some 10)].map fun r => monthKey r.1).dedup) =
        ["2024-01", "2024-02"] := by decide
    have hsorted : List.Pairwise (fun a b => strLe a b = true) ["2024-01", "2024-02"] := by
      decide
    simp only [monthlyTotals]
    rw [hkeys, List.mergeSort_of_sorted hsorted]
    simp only [List.map_cons, List.map_nil, List.filter_cons, List.filter_nil,
      hmk1, hmk2, hmk3, hmk4, hmk5, hmk6, if_true, if_false, List.foldl_cons,
      List.foldl_nil, addNaN, MonthlyRow.mk.injEq]
    norm_num [addNaN]

end Bizdash
